import Mathlib

/-!
Verification of the two DNS driver modules (`libcloud/dns/drivers/hpcloud.py`
and `libcloud/dns/drivers/vultr.py`) against their natural-language
specification.  Python strings are embedded as `List Char`; JSON dictionaries
as association lists; fallible code returns `Except`; every HTTP exchange is
made explicit, with the parsed bodies of the provider's (successful) responses
supplied as inputs and the requests an operation issues returned as a trace.
-/

namespace LibcloudDNS

/-- A Python string, embedded as its list of characters. -/
abbrev Str := List Char

/-- Python dictionary lookup `d[k]` / `d.get(k)` on a string-keyed dict,
embedded as an association list: the first binding of the key, if any. -/
def dictGet {α : Type} (d : List (Str × α)) (k : Str) : Option α :=
  (d.find? (fun p => p.1 == k)).map (fun p => p.2)

/-- Python `int(s)` on a decimal string: an optional sign and at least one
digit (surrounding spaces allowed); `none` embeds the `ValueError` raised on
any other string. -/
def digitsToNat? (cs : Str) : Option Nat :=
  if cs ≠ [] ∧ cs.all Char.isDigit then
    some (cs.foldl (fun a c => a * 10 + (c.toNat - 48)) 0)
  else none

/-- Python `int(s)` (see `digitsToNat?`). -/
def pyInt? (s : Str) : Option Int :=
  let t := ((s.dropWhile (fun c => c = ' ')).reverse.dropWhile (fun c => c = ' ')).reverse
  match t with
  | '-' :: ds => (digitsToNat? ds).map (fun n => -(n : Int))
  | '+' :: ds => (digitsToNat? ds).map (fun n => (n : Int))
  | ds => (digitsToNat? ds).map (fun n => (n : Int))

/-- Modelled from the spec: the canonical record types of the shared data
model (`libcloud/dns/types.py` is not under `src/`).  The constants are
distinct tokens of their own, not the provider strings the drivers map them
to through `RECORD_TYPE_MAP`. -/
inductive RecordType where
  | A | AAAA | CNAME | MX | NS | PTR | SRV | TXT
deriving DecidableEq, BEq, Repr

/-- Python runtime errors the drivers can hit while building a request or
parsing a response. -/
inductive PyErr where
  | keyError (key : Str)
  | keyErrorInt (n : Nat)
  | unboundLocal (var : Str)
  | indexError
  | typeError
  | valueError
  | attributeError
deriving DecidableEq, Repr

/-- A value of a JSON / form-encoded request payload. -/
inductive JVal where
  | str (s : Str)
  | int (n : Int)
deriving DecidableEq, Repr

/-- Python `urlencode` renders `None` as the string `None`; other values are
their string form. -/
def jvalOfOpt (o : Option Str) : JVal :=
  match o with
  | some s => JVal.str s
  | none => JVal.str ("None".data)

/-- One HTTP request issued by a driver: its action path, method and payload
(query parameters are rendered through the environment functions below). -/
structure Req where
  action : Str
  method : Str
  body : List (Str × JVal)
deriving DecidableEq, Repr

-- String constants used by the drivers (dict keys and fixed values).
def kResource : Str := "resource".data
def kId : Str := "id".data
def kValue : Str := "value".data
def sZone : Str := "zone".data
def sRecord : Str := "record".data
def kCode : Str := "code".data
def kMessage : Str := "message".data
def kErrors : Str := "errors".data
def kName : Str := "name".data
def kType : Str := "type".data
def kData : Str := "data".data
def kTtl : Str := "ttl".data
def kComment : Str := "comment".data
def kPriority : Str := "priority".data
def kDescription : Str := "description".data
def kFqdn : Str := "fqdn".data
def kEmail : Str := "email".data
def kDomain : Str := "domain".data
def kServerip : Str := "serverip".data
def kDateCreated : Str := "date_created".data
def sMaster : Str := "master".data
def sGET : Str := "GET".data
def sPOST : Str := "POST".data

/-- `httplib.NOT_FOUND`. -/
def NOT_FOUND : Nat := 404

/-- `httplib.CONFLICT`. -/
def CONFLICT : Nat := 409

/-- Modelled from the spec: `DNSDriver._string_to_record_type` (shared base
class `libcloud/dns/base.py`, not under `src/`) maps a provider type string
back to the canonical record-type constant by its (upper-cased) name; an
unknown string raises. -/
def string_to_record_type (s : Str) : Option RecordType :=
  let u := s.map Char.toUpper
  if u == "A".data then some RecordType.A
  else if u == "AAAA".data then some RecordType.AAAA
  else if u == "CNAME".data then some RecordType.CNAME
  else if u == "MX".data then some RecordType.MX
  else if u == "NS".data then some RecordType.NS
  else if u == "PTR".data then some RecordType.PTR
  else if u == "SRV".data then some RecordType.SRV
  else if u == "TXT".data then some RecordType.TXT
  else none

namespace HPCloud

/-- Modelled from the spec: the shared `Zone` data carrier (`libcloud/dns/base.py`
is not under `src/`): "a Zone carries an identifier, domain name, type,
time-to-live, and a provider-specific extra mapping". -/
structure Zone where
  id : Str
  domain : Str
  type : Str
  ttl : Int
  extra : List (Str × Str)
deriving DecidableEq, Repr

/-- Modelled from the spec: the shared `Record` data carrier: "a Record carries
an identifier, name (relative to its zone), type, value, owning zone
reference, and a provider-specific extra mapping"; the name is `None` for a
record at the zone root. -/
structure Record where
  id : Str
  name : Option Str
  type : RecordType
  data : Str
  zone : Zone
  extra : List (Str × Str)
deriving DecidableEq, Repr

/-- Python `s.replace(old, '')`, the call `_to_partial_record_name` makes:
every non-overlapping occurrence of `old`, scanned left to right, is removed.
The fuel argument (any bound on `s.length`; `s.length` itself at the
top-level call, see `replaceAll`) makes the recursion structural so that the
function evaluates by reduction. -/
def replaceAllFuel (old : Str) : Nat → Str → Str
  | 0, s => s
  | _ + 1, [] => []
  | fuel + 1, c :: rest =>
    if !old.isEmpty && old.isPrefixOf (c :: rest) then
      replaceAllFuel old fuel (rest.drop (old.length - 1))
    else
      c :: replaceAllFuel old fuel rest

/-- Python `s.replace(old, '')` (see `replaceAllFuel`). -/
def replaceAll (old s : Str) : Str :=
  replaceAllFuel old s.length s

/-- `HPCloudDNSDriver._to_full_record_name`: `name + '.' + domain` for a
truthy name, the bare domain for an empty (or absent) one. -/
def _to_full_record_name (domain name : Str) : Str :=
  if name ≠ [] then name ++ '.' :: domain else domain

/-- `HPCloudDNSDriver._to_partial_record_name`: `None` when the full name is
exactly the domain, otherwise `name.replace('.' + domain, '')`. -/
def _to_partial_record_name (domain name : Str) : Option Str :=
  if name = domain then none
  else some (replaceAll ('.' :: domain) name)

/-- The record name as the spec's words describe it: "record name concatenated
with its zone's domain" is the FQDN, so the name relative to the zone is the
FQDN with that domain portion — the trailing `'.' + domain` — stripped, and
`None` at the zone root.  Spec-side definition, for comparison with the
driver's `_to_partial_record_name`. -/
def spec_partial_record_name (domain name : Str) : Option Str :=
  if name = domain then none
  else if ('.' :: domain).isSuffixOf name then
    some (name.take (name.length - (domain.length + 1)))
  else some name

/-- A JSON value of a parsed response body. -/
inductive BodyVal where
  | str (s : Str)
  | list (xs : List BodyVal)
  | obj (fields : List (Str × BodyVal))

/-- The access `body['errors'][0]['message']` in `parse_error`, with each way
Python can fail on it. -/
def errors0message (d : List (Str × BodyVal)) : Except PyErr BodyVal :=
  match dictGet d kErrors with
  | none => Except.error (PyErr.keyError kErrors)
  | some (BodyVal.list []) => Except.error PyErr.indexError
  | some (BodyVal.list (BodyVal.obj fs :: _)) =>
    match dictGet fs kMessage with
    | none => Except.error (PyErr.keyError kMessage)
    | some v => Except.ok v
  | some (BodyVal.list (BodyVal.str _ :: _)) => Except.error PyErr.typeError
  | some (BodyVal.list (BodyVal.list _ :: _)) => Except.error PyErr.typeError
  | some (BodyVal.str []) => Except.error PyErr.indexError
  | some (BodyVal.str (_ :: _)) => Except.error PyErr.typeError
  | some (BodyVal.obj _) => Except.error (PyErr.keyErrorInt 0)

/-- What `HPCloudDNSResponse.parse_error` does: the exception it raises, or —
one path returns instead of raising — the error string it builds, carried as
its three components `body['code']`, `body['message']`,
`body['errors'][0]['message']`. -/
inductive ParseErrorOutcome where
  | zoneDoesNotExist (zoneId : Str)
  | recordDoesNotExist (recordId : Str)
  | zoneAlreadyExists (value : Str)
  | recordAlreadyExists (value : Str)
  | unexpectedStatus (status : Nat)
  | errorString (code msg err0 : BodyVal)
  | keyError (key : Str)
  | py (e : PyErr)

/-- The tail of `parse_error` after the two status checks: `if body:` (a
`None` or empty dict is falsy), then `if 'code' and 'message' in body:` —
which Python reads as `'code' and ('message' in body)`, and `'code'` is a
non-empty string, hence truthy, so the test is just `'message' in body` —
returns the formatted error string; otherwise
`raise LibcloudError('Unexpected status code: %s' % status)`. -/
def parse_error_body_stage (status : Nat)
    (body : Option (List (Str × BodyVal))) : ParseErrorOutcome :=
  match body with
  | none => ParseErrorOutcome.unexpectedStatus status
  | some d =>
    if d.isEmpty then ParseErrorOutcome.unexpectedStatus status
    else if (dictGet d kMessage).isSome then
      match dictGet d kCode with
      | none => ParseErrorOutcome.keyError kCode
      | some codeV =>
        match dictGet d kMessage with
        | none => ParseErrorOutcome.keyError kMessage
        | some msgV =>
          match errors0message d with
          | Except.error e => ParseErrorOutcome.py e
          | Except.ok errV => ParseErrorOutcome.errorString codeV msgV errV
    else ParseErrorOutcome.unexpectedStatus status

/-- The `if status == httplib.CONFLICT:` block of `parse_error`: for a zone
context it raises `ZoneAlreadyExistsError(value=context['value'], zone_id=None)`,
for a record context `RecordAlreadyExistsError(value=context['value'],
record_id=None)`; any other context falls through to the body stage. -/
def parse_error_conflict_stage (status : Nat) (context : List (Str × Str))
    (body : Option (List (Str × BodyVal))) : ParseErrorOutcome :=
  if status = CONFLICT then
    match dictGet context kResource with
    | none => ParseErrorOutcome.keyError kResource
    | some r =>
      if r = sZone then
        match dictGet context kValue with
        | none => ParseErrorOutcome.keyError kValue
        | some v => ParseErrorOutcome.zoneAlreadyExists v
      else if r = sRecord then
        match dictGet context kValue with
        | none => ParseErrorOutcome.keyError kValue
        | some v => ParseErrorOutcome.recordAlreadyExists v
      else parse_error_body_stage status body
  else parse_error_body_stage status body

/-- `HPCloudDNSResponse.parse_error`.  Arguments: `int(self.status)`, the
connection context dict, and the parsed body.  For `httplib.NOT_FOUND` a zone
context raises `ZoneDoesNotExistError(value='', zone_id=context['id'])` and a
record context `RecordDoesNotExistError(value='', record_id=context['id'])`;
other contexts, and all other statuses, fall through to the conflict and body
stages. -/
def parse_error (status : Nat) (context : List (Str × Str))
    (body : Option (List (Str × BodyVal))) : ParseErrorOutcome :=
  if status = NOT_FOUND then
    match dictGet context kResource with
    | none => ParseErrorOutcome.keyError kResource
    | some r =>
      if r = sZone then
        match dictGet context kId with
        | none => ParseErrorOutcome.keyError kId
        | some i => ParseErrorOutcome.zoneDoesNotExist i
      else if r = sRecord then
        match dictGet context kId with
        | none => ParseErrorOutcome.keyError kId
        | some i => ParseErrorOutcome.recordDoesNotExist i
      else parse_error_conflict_stage status context body
  else parse_error_conflict_stage status context body

/-- Condition under which the body stage cannot produce the formatted error
string: the parsed body is `None`, an empty (falsy) dict, or a dict without a
`'message'` key. -/
def body_lacks_message (body : Option (List (Str × BodyVal))) : Prop :=
  match body with
  | none => True
  | some d => d = [] ∨ dictGet d kMessage = none

/-- `VALID_RECORD_EXTRA_PARAMS = ['ttl', 'comment', 'priority']`. -/
def VALID_RECORD_EXTRA_PARAMS : List Str := [kTtl, kComment, kPriority]

/-- `HPCloudDNSDriver.RECORD_TYPE_MAP`: a dict over all eight canonical record
types (indexed with `RECORD_TYPE_MAP[type]`, which can therefore not miss),
each mapped to its provider string. -/
def RECORD_TYPE_MAP : RecordType → Str
  | RecordType.A => "A".data
  | RecordType.AAAA => "AAAA".data
  | RecordType.CNAME => "CNAME".data
  | RecordType.MX => "MX".data
  | RecordType.NS => "NS".data
  | RecordType.PTR => "PTR".data
  | RecordType.SRV => "SRV".data
  | RecordType.TXT => "TXT".data

/-- `HPCloudDNSDriver._to_record`: reads `data['id']` (stringified),
`data['name']` (the provider FQDN, kept in `extra['fqdn']`), derives the
relative name with `_to_partial_record_name`, reads `data['type']` and
`data['data']`, and copies each of `VALID_RECORD_EXTRA_PARAMS` present in the
item into `extra`.  A missing key raises `KeyError`; an unknown type string
makes `_string_to_record_type` raise. -/
def _to_record (zone : Zone) (data : List (Str × Str)) : Except PyErr Record :=
  match dictGet data kId with
  | none => Except.error (PyErr.keyError kId)
  | some i =>
    match dictGet data kName with
    | none => Except.error (PyErr.keyError kName)
    | some fqdn =>
      let name := _to_partial_record_name zone.domain fqdn
      match dictGet data kType with
      | none => Except.error (PyErr.keyError kType)
      | some tys =>
        match string_to_record_type tys with
        | none => Except.error PyErr.attributeError
        | some ty =>
          match dictGet data kData with
          | none => Except.error (PyErr.keyError kData)
          | some record_data =>
            let extra := (kFqdn, fqdn) ::
              VALID_RECORD_EXTRA_PARAMS.filterMap
                (fun k => (dictGet data k).map (fun v => (k, v)))
            Except.ok ⟨i, name, ty, record_data, zone, extra⟩

/-- `HPCloudDNSDriver.create_record`.  `extra = extra if extra else {}`; the
record name is made fully qualified; the payload gets `ttl` (3600 unless
`int(extra['ttl'])`), a `description` — **`extra['data']`** when
`'description' in extra`, the FQDN otherwise — and `int(extra['priority'])`
when present; then one POST to `/domains/<zone.id>/records` is issued and the
response parsed with `_to_record`.  The result pairs the outcome with the
trace of requests issued. -/
def create_record (zone : Zone) (name0 : Str) (rtype : RecordType)
    (rdata : Str) (extra0 : Option (List (Str × Str)))
    (response : List (Str × Str)) : Except PyErr Record × List Req :=
  let extra := extra0.getD []
  let name := _to_full_record_name zone.domain name0
  let ttlR : Except PyErr Int :=
    match dictGet extra kTtl with
    | some v =>
      match pyInt? v with
      | none => Except.error PyErr.valueError
      | some n => Except.ok n
    | none => Except.ok 3600
  match ttlR with
  | Except.error e => (Except.error e, [])
  | Except.ok ttlV =>
    let descR : Except PyErr Str :=
      match dictGet extra kDescription with
      | some _ =>
        match dictGet extra kData with
        | none => Except.error (PyErr.keyError kData)
        | some dv => Except.ok dv
      | none => Except.ok name
    match descR with
    | Except.error e => (Except.error e, [])
    | Except.ok desc =>
      let priR : Except PyErr (Option Int) :=
        match dictGet extra kPriority with
        | some v =>
          match pyInt? v with
          | none => Except.error PyErr.valueError
          | some n => Except.ok (some n)
        | none => Except.ok none
      match priR with
      | Except.error e => (Except.error e, [])
      | Except.ok priV =>
        let payload := [(kName, JVal.str name), (kType, JVal.str (RECORD_TYPE_MAP rtype)),
          (kData, JVal.str rdata), (kTtl, JVal.int ttlV), (kDescription, JVal.str desc)] ++
          (match priV with
           | some p => [(kPriority, JVal.int p)]
           | none => [])
        let req : Req :=
          ⟨("/domains/".data) ++ zone.id ++ ("/records".data), sPOST, payload⟩
        match _to_record zone response with
        | Except.error e => (Except.error e, [req])
        | Except.ok r => (Except.ok r, [req])

/-- A parsed body holding `'code'`, `'message'` and `'errors'`, as the HPCloud
API sends on a failed request. -/
def fullErrorBody : List (Str × BodyVal) :=
  [(kCode, BodyVal.str ("500".data)), (kMessage, BodyVal.str ("err".data)),
   (kErrors, BodyVal.list [BodyVal.obj [(kMessage, BodyVal.str ("boom".data))]])]

/-- A zone with domain `"a"`, for the name-mapping counterexamples. -/
def zoneA : Zone := ⟨"1".data, "a".data, sMaster, 0, []⟩

/-- A provider record item whose FQDN `"b.a.a"` contains the domain `"a"` of
`zoneA` also before the final suffix. -/
def dataBAA : List (Str × Str) :=
  [(kId, "7".data), (kName, "b.a.a".data), (kType, "A".data),
   (kData, "1.2.3.4".data)]

/-- An extra dict with a `'description'` but no `'data'` key, and a
non-numeric `'ttl'`. -/
def extraBadTtl : List (Str × Str) :=
  [(kDescription, "d".data), (kTtl, "abc".data)]

/-- A zone with domain `"foo.com"`. -/
def zoneFoo : Zone := ⟨"2".data, "foo.com".data, sMaster, 7200, []⟩

/-- A well-formed provider record item in `zoneFoo`. -/
def dataWWW : List (Str × Str) :=
  [(kId, "5".data), (kName, "www.foo.com".data), (kType, "A".data),
   (kData, "1.2.3.4".data)]

end HPCloud

namespace Vultr

/-- Domain and Python exceptions a Vultr driver operation can raise. -/
inductive DnsErr where
  | zoneDoesNotExist (zoneId : Str)
  | recordDoesNotExist (recordId : Str)
  | zoneAlreadyExists (zoneId : Str)
  | recordAlreadyExists (recordId : Str)
  | zoneRequired
  | py (e : PyErr)
deriving DecidableEq, Repr

/-- Modelled from the spec: the shared `Zone` data carrier (identifier, domain
name, type, time-to-live, extra mapping); the Vultr driver passes `ttl=None`
and stores the caller's extra dict as is. -/
structure Zone where
  id : Str
  domain : Str
  type : Str
  ttl : Option Nat
  extra : Option (List (Str × Str))
deriving DecidableEq, Repr

/-- One item of the provider's `/v1/dns/list` response body; the fields are
the dict keys `_to_zone` reads (`item['domain']`, `item['date_created']`). -/
structure ZoneItem where
  domain : Str
  date_created : Str
deriving DecidableEq, Repr

/-- One item of the provider's `/v1/dns/records` response body; the fields are
the dict keys `_to_record` reads (`item['RECORDID']`, `item['name']`,
`item['type']`, `item['data']`, and the optional `item.get('priority')`,
`none` when the key is absent or its value falsy). -/
structure RecordItem where
  RECORDID : Str
  name : Str
  type : Str
  data : Str
  priority : Option Int
deriving DecidableEq, Repr

/-- Modelled from the spec: the shared `Record` data carrier (identifier,
name, type, value, owning zone reference, extra mapping). -/
structure Record where
  id : Str
  name : Str
  type : RecordType
  data : Str
  zone : Zone
  extra : List (Str × Int)
deriving DecidableEq, Repr

/-- `VultrDNSDriver.RECORD_TYPE_MAP`: the seven record types the driver
supports (no PTR), each mapped to its provider string, in the source's
order. -/
def RECORD_TYPE_MAP : List (RecordType × Str) :=
  [(RecordType.A, "A".data), (RecordType.AAAA, "AAAA".data),
   (RecordType.TXT, "TXT".data), (RecordType.CNAME, "CNAME".data),
   (RecordType.MX, "MX".data), (RecordType.NS, "NS".data),
   (RecordType.SRV, "SRV".data)]

/-- `RECORD_TYPE_MAP.get(type)`: `None` for a type the driver does not map
(PTR). -/
def recordTypeMapGet (t : RecordType) : Option Str :=
  (RECORD_TYPE_MAP.find? (fun p => p.1 == t)).map (fun p => p.2)

/-- `VultrDNSDriver._to_zone`: `type = 'master'`, `extra =
{'date_created': item['date_created']}`, and the domain serves as both id and
domain; `ttl=None`. -/
def _to_zone (item : ZoneItem) : Zone :=
  ⟨item.domain, item.domain, sMaster, none, some [(kDateCreated, item.date_created)]⟩

/-- `VultrDNSDriver._to_zones`. -/
def _to_zones (items : List ZoneItem) : List Zone :=
  items.map _to_zone

/-- `VultrDNSDriver._to_record`: `extra['priority']` only for a truthy
priority, the type through `_string_to_record_type` (raising on an unknown
string). -/
def _to_record (item : RecordItem) (zone : Zone) : Except PyErr Record :=
  let extra : List (Str × Int) :=
    match item.priority with
    | some p => if p ≠ 0 then [(kPriority, p)] else []
    | none => []
  match string_to_record_type item.type with
  | none => Except.error PyErr.attributeError
  | some ty => Except.ok ⟨item.RECORDID, item.name, ty, item.data, zone, extra⟩

/-- `VultrDNSDriver._to_records`: the items in order; the first failure
raises. -/
def _to_records (items : List RecordItem) (zone : Zone) : Except PyErr (List Record) :=
  items.mapM (fun it => _to_record it zone)

/-- `VultrDNSDriver.zone_exists`: membership of `zone_id` among the listed
zones' domains. -/
def zone_exists (zone_id : Str) (zones_list : List Zone) : Bool :=
  (zones_list.map (fun z => z.domain)).contains zone_id

/-- `VultrDNSDriver.record_exists`: membership of `record_id` among the listed
records' ids. -/
def record_exists (record_id : Str) (records_list : List Record) : Bool :=
  (records_list.map (fun r => r.id)).contains record_id

/-- The remote provider, as the parsed bodies of its successful (HTTP 200)
responses: the `/v1/dns/list` domain listing, and the `/v1/dns/records`
listing for each queried domain.  Error statuses would be raised by the
shared response class before any driver code runs, so an environment models
an exchange in which every issued request succeeds. -/
structure VultrEnv where
  domainsList : List ZoneItem
  recordsList : Str → List RecordItem

/-- The `GET /v1/dns/list` request. -/
def listReq : Req := ⟨"/v1/dns/list".data, sGET, []⟩

/-- The `GET /v1/dns/records?domain=...` request. -/
def recordsReq : Req := ⟨"/v1/dns/records".data, sGET, []⟩

/-- Python `ret = None; for x in xs: if p x: ret = x` — the last element
satisfying `p`, if any. -/
def pickLast {α : Type} (p : α → Bool) (xs : List α) : Option α :=
  xs.foldl (fun acc x => if p x then some x else acc) none

/-- `VultrDNSDriver.list_zones`: one `GET /v1/dns/list`, parsed with
`_to_zones`. -/
def list_zones (env : VultrEnv) : List Zone × List Req :=
  (_to_zones env.domainsList, [listReq])

/-- `VultrDNSDriver.get_zone`: fetches the domain listing, raises
`ZoneDoesNotExistError(value=None, zone_id=zone_id)` when `zone_id` is not
among the listed domains, and otherwise returns the last listed zone whose
domain equals `zone_id` (the loop keeps overwriting `ret_zone`). -/
def get_zone (env : VultrEnv) (zone_id : Str) :
    Except DnsErr (Option Zone) × List Req :=
  let zones := _to_zones env.domainsList
  if zone_exists zone_id zones = false then
    (Except.error (DnsErr.zoneDoesNotExist zone_id), [listReq])
  else
    (Except.ok (pickLast (fun z => z.domain == zone_id) zones), [listReq])

/-- `VultrDNSDriver.list_records`: the `isinstance(zone, Zone)` guard is
satisfied by typing; fetches the domain listing, raises
`ZoneDoesNotExistError` when `zone.domain` is not among the listed domains,
then fetches and parses the record listing for `zone.domain`. -/
def list_records (env : VultrEnv) (zone : Zone) :
    Except DnsErr (List Record) × List Req :=
  let zones := _to_zones env.domainsList
  if zone_exists zone.domain zones = false then
    (Except.error (DnsErr.zoneDoesNotExist zone.domain), [listReq])
  else
    match _to_records (env.recordsList zone.domain) zone with
    | Except.error e => (Except.error (DnsErr.py e), [listReq, recordsReq])
    | Except.ok records => (Except.ok records, [listReq, recordsReq])

/-- `VultrDNSDriver.get_record`: `get_zone`, then `list_records` (a `None`
zone would fail that call's `isinstance` guard with `ZoneRequiredException`),
then `RecordDoesNotExistError(value='', record_id=record_id)` when no listed
record has the id, else the last record with that id. -/
def get_record (env : VultrEnv) (zone_id record_id : Str) :
    Except DnsErr (Option Record) × List Req :=
  match get_zone env zone_id with
  | (Except.error e, t) => (Except.error e, t)
  | (Except.ok none, t) => (Except.error DnsErr.zoneRequired, t)
  | (Except.ok (some zone), t) =>
    match list_records env zone with
    | (Except.error e, t2) => (Except.error e, t ++ t2)
    | (Except.ok records, t2) =>
      if record_exists record_id records = false then
        (Except.error (DnsErr.recordDoesNotExist record_id), t ++ t2)
      else
        (Except.ok (pickLast (fun r => r.id == record_id) records), t ++ t2)

/-- The binding `if extra and extra.get('serverip'): serverip = extra['serverip']`
at the top of `create_zone`: bound only when `extra` is truthy and holds a
truthy `'serverip'`. -/
def serveripBinding (extra : Option (List (Str × Str))) : Option Str :=
  match extra with
  | none => none
  | some e =>
    match dictGet e kServerip with
    | some v => if v.isEmpty then none else some v
    | none => none

/-- `VultrDNSDriver.create_zone`: builds
`urlencode({'domain': zone_id, 'serverip': serverip})` — reading the local
`serverip`, unbound unless `extra` held a truthy `'serverip'`, **before** any
request — then fetches the domain listing, raises
`ZoneAlreadyExistsError(value='', zone_id=zone_id)` when the zone is listed,
and otherwise POSTs to `/v1/dns/create_domain` and returns a `Zone` built
locally from the arguments. -/
def create_zone (env : VultrEnv) (zone_id : Str) (type : Str)
    (ttl : Option Nat) (extra : Option (List (Str × Str))) :
    Except DnsErr Zone × List Req :=
  match serveripBinding extra with
  | none => (Except.error (DnsErr.py (PyErr.unboundLocal kServerip)), [])
  | some serverip =>
    let postBody := [(kDomain, JVal.str zone_id), (kServerip, JVal.str serverip)]
    let zones := _to_zones env.domainsList
    if zone_exists zone_id zones then
      (Except.error (DnsErr.zoneAlreadyExists zone_id), [listReq])
    else
      (Except.ok ⟨zone_id, zone_id, type, ttl, extra⟩,
        [listReq, ⟨"/v1/dns/create_domain".data, sPOST, postBody⟩])

/-- The binding `if extra and extra.get('priority'): priority = int(extra['priority'])`
in `create_record`: `int()` raises `ValueError` on a non-numeric truthy
value; the bound value itself is dead, because `post_data` is rebuilt without
it below. -/
def priorityBinding (extra : Option (List (Str × Str))) : Except PyErr (Option Int) :=
  match extra with
  | none => Except.ok none
  | some e =>
    match dictGet e kPriority with
    | none => Except.ok none
    | some v =>
      if v.isEmpty then Except.ok none
      else
        match pyInt? v with
        | none => Except.error PyErr.valueError
        | some n => Except.ok (some n)

/-- `VultrDNSDriver.create_record`.  Lists the zone's records (against the
pre-state `pre`), raises `RecordAlreadyExistsError(value='',
record_id=record.id)` at the first old record whose name equals the requested
one, evaluates the `priority` binding, POSTs `post_data` to
`/v1/dns/create_record` (`MX = RECORD_TYPE_MAP.get('MX')` and
`SRV = ...get('SRV')` look up *string* keys in the RecordType-keyed dict, so
both are `None` and `type == MX or type == SRV` is false for every
`RecordType`; the first `post_data`, whose `'type'` is the equally absent
`...get('type')`, is discarded when `post_data` is rebuilt), then lists the
records again (against the post-state `post`, the provider's state after the
creation) with `zone.list_records()`, and runs
`for record in updated: if record.name == name: record = record` — a no-op
assignment, leaving `record` as the **last** listed record (or the earlier
`record = None` when the listing is empty). -/
def create_record (pre post : VultrEnv) (zone : Zone) (name : Str)
    (rtype : RecordType) (rdata : Str) (extra : Option (List (Str × Str))) :
    Except DnsErr (Option Record) × List Req :=
  match list_records pre zone with
  | (Except.error e, t) => (Except.error e, t)
  | (Except.ok oldRecords, t) =>
    match oldRecords.find? (fun r => r.name == name) with
    | some r => (Except.error (DnsErr.recordAlreadyExists r.id), t)
    | none =>
      match priorityBinding extra with
      | Except.error e => (Except.error (DnsErr.py e), t)
      | Except.ok _priority =>
        let post_data := [(kDomain, JVal.str zone.domain), (kName, JVal.str name),
          (kType, jvalOfOpt (recordTypeMapGet rtype)), (kData, JVal.str rdata)]
        let req : Req := ⟨"/v1/dns/create_record".data, sPOST, post_data⟩
        match list_records post zone with
        | (Except.error e, t2) => (Except.error e, t ++ [req] ++ t2)
        | (Except.ok updated, t2) =>
          (Except.ok (updated.foldl (fun _ r => some r) none), t ++ [req] ++ t2)

/-- A provider with no zones at all (every response successful). -/
def emptyEnv : VultrEnv := ⟨[], fun _ => []⟩

/-- The one listed domain of the concrete environments below. -/
def ziEx : ZoneItem := ⟨"example.com".data, "2015-05-01 00:00:00".data⟩

/-- A provider listing `example.com` with no records. -/
def envEx : VultrEnv := ⟨[ziEx], fun _ => []⟩

/-- The `Zone` built from `ziEx`. -/
def zEx : Zone := _to_zone ziEx

/-- The record item named `"www"` (the one `create_record` is asked for). -/
def wwwItem : RecordItem := ⟨"1".data, "www".data, "A".data, "1.2.3.4".data, none⟩

/-- A pre-existing record item named `"mail"`. -/
def mailItem : RecordItem := ⟨"2".data, "mail".data, "A".data, "5.6.7.8".data, none⟩

/-- The provider before the creation: `example.com` holds only `"mail"`. -/
def preEnv : VultrEnv := ⟨[ziEx], fun _ => [mailItem]⟩

/-- The provider after the creation: the new `"www"` record is listed first,
the old `"mail"` record last. -/
def postEnv : VultrEnv := ⟨[ziEx], fun _ => [wwwItem, mailItem]⟩

/-- The `Record` parsed from `wwwItem`. -/
def wwwRec : Record :=
  ⟨"1".data, "www".data, RecordType.A, "1.2.3.4".data, zEx, []⟩

/-- The `Record` parsed from `mailItem`. -/
def mailRec : Record :=
  ⟨"2".data, "mail".data, RecordType.A, "5.6.7.8".data, zEx, []⟩

end Vultr

/-! ## Theorems -/

namespace HPCloud

theorem replaceAllFuel_nil (old : Str) (fuel : Nat) : replaceAllFuel old fuel [] = [] := by
  cases fuel <;> rfl

theorem replaceAllFuel_congr (old : Str) (fuel₁ : Nat) :
    ∀ (fuel₂ : Nat) (s : Str), s.length ≤ fuel₁ → s.length ≤ fuel₂ →
      replaceAllFuel old fuel₁ s = replaceAllFuel old fuel₂ s := by
  induction fuel₁ with
  | zero =>
    intro f₂ s h₁ _
    have hs : s = [] := List.eq_nil_of_length_eq_zero (Nat.le_zero.mp h₁)
    subst hs
    rw [replaceAllFuel_nil, replaceAllFuel_nil]
  | succ f ih =>
    intro f₂ s h₁ h₂
    cases s with
    | nil => rw [replaceAllFuel_nil, replaceAllFuel_nil]
    | cons c rest =>
      cases f₂ with
      | zero =>
        rw [List.length_cons] at h₂
        exact absurd h₂ (Nat.not_succ_le_zero _)
      | succ g =>
        rw [List.length_cons] at h₁ h₂
        simp only [replaceAllFuel]
        by_cases hc : (!old.isEmpty && old.isPrefixOf (c :: rest)) = true
        · rw [if_pos hc, if_pos hc]
          apply ih
          · rw [List.length_drop]; omega
          · rw [List.length_drop]; omega
        · rw [if_neg hc, if_neg hc]
          rw [ih g rest (by omega) (by omega)]

theorem replaceAll_cons_match (old : Str) (c : Char) (rest : Str)
    (h : (!old.isEmpty && old.isPrefixOf (c :: rest)) = true) :
    replaceAll old (c :: rest) = replaceAll old (rest.drop (old.length - 1)) := by
  show replaceAllFuel old (c :: rest).length (c :: rest) = _
  rw [List.length_cons]
  simp only [replaceAllFuel]
  rw [if_pos h]
  exact replaceAllFuel_congr old rest.length _ _
    (by rw [List.length_drop]; omega) (Nat.le_refl _)

theorem replaceAll_cons_nomatch (old : Str) (c : Char) (rest : Str)
    (h : (!old.isEmpty && old.isPrefixOf (c :: rest)) = false) :
    replaceAll old (c :: rest) = c :: replaceAll old rest := by
  show replaceAllFuel old (c :: rest).length (c :: rest) = _
  rw [List.length_cons]
  simp only [replaceAllFuel]
  rw [if_neg (by rw [h]; exact Bool.false_ne_true)]
  rfl

theorem replaceAll_self_eq_nil (old : Str) (hne : old ≠ []) :
    replaceAll old old = [] := by
  cases old with
  | nil => exact absurd rfl hne
  | cons o os =>
    rw [replaceAll_cons_match (o :: os) o os
      (by simp [List.isPrefixOf_iff_prefix, List.prefix_refl])]
    have hd : (o :: os).length - 1 = os.length := by
      rw [List.length_cons]
      omega
    rw [hd, List.drop_length]
    rfl

theorem replaceAll_of_no_inner_occurrence (old : Str) (hne : old ≠ []) :
    ∀ pre : Str,
      (∀ i, i < pre.length → old.isPrefixOf ((pre ++ old).drop i) = false) →
      replaceAll old (pre ++ old) = pre := by
  intro pre
  induction pre with
  | nil =>
    intro _
    rw [List.nil_append]
    exact replaceAll_self_eq_nil old hne
  | cons c pre' ih =>
    intro h
    have h0 : old.isPrefixOf (c :: (pre' ++ old)) = false := by
      have h0' := h 0 (by rw [List.length_cons]; omega)
      rw [List.drop_zero, List.cons_append] at h0'
      exact h0'
    rw [List.cons_append, replaceAll_cons_nomatch old c (pre' ++ old)
      (by rw [h0, Bool.and_false])]
    congr 1
    apply ih
    intro i hi
    have hsucc := h (i + 1) (by rw [List.length_cons]; omega)
    rw [List.cons_append, List.drop_succ_cons] at hsucc
    exact hsucc

/-- C1 (counterexample): the round trip
`_to_partial_record_name(d, _to_full_record_name(d, n))` does *not* return
`n` for every domain `d` and relative name `n`: at `d = "a"`, `n = "b.a"`
the FQDN is `"b.a.a"` and `str.replace` removes both occurrences of `".a"`,
giving `"b"`. -/
theorem record_name_roundtrip_cex :
    _to_partial_record_name ("a".data) (_to_full_record_name ("a".data) ("b.a".data)) ≠
      some ("b.a".data) ∧
    _to_partial_record_name ("a".data) (_to_full_record_name ("a".data) ("b.a".data)) =
      some ("b".data) :=
  ⟨by decide, by decide⟩

/-- C1 (amended): the round trip returns `n` (and `None` for the empty name)
provided `'.' + d` occurs in the FQDN `n ++ '.' ++ d` only as its final
suffix — i.e. at no position strictly before `n.length`; `str.replace`
removes every occurrence, so an occurrence inside `n` would also be
removed. -/
theorem record_name_roundtrip (d n : Str)
    (h : ∀ i, i < n.length → ('.' :: d).isPrefixOf ((n ++ '.' :: d).drop i) = false) :
    _to_partial_record_name d (_to_full_record_name d n) =
      if n = [] then none else some n := by
  by_cases hn : n = []
  · subst hn
    rw [if_pos rfl]
    simp [_to_full_record_name, _to_partial_record_name]
  · rw [if_neg hn]
    have hfull : _to_full_record_name d n = n ++ '.' :: d := by
      simp [_to_full_record_name, hn]
    rw [hfull]
    have hne : ¬ (n ++ '.' :: d) = d := by
      intro he
      have hlen := congrArg List.length he
      rw [List.length_append, List.length_cons] at hlen
      have : n.length ≠ 0 := fun h0 =>
        hn (List.eq_nil_of_length_eq_zero h0)
      omega
    simp only [_to_partial_record_name, if_neg hne]
    rw [replaceAll_of_no_inner_occurrence ('.' :: d) (by simp) n h]

/-- Witness for C1's amended theorem at domain `"com"`, name `"www"`. -/
theorem record_name_roundtrip_witness :
    (∀ i, i < ("www".data : Str).length →
      ('.' :: ("com".data)).isPrefixOf (((("www".data) : Str) ++ '.' :: ("com".data)).drop i) = false) ∧
    _to_partial_record_name ("com".data) (_to_full_record_name ("com".data) ("www".data)) =
      if ("www".data : Str) = [] then none else some ("www".data) :=
  ⟨by decide, record_name_roundtrip ("com".data) ("www".data) (by decide)⟩

/-- C2: on HTTP 404 (`httplib.NOT_FOUND`), `parse_error` raises the
"not found" error for the resource kind in the connection context —
`ZoneDoesNotExistError` for a `'zone'` context, `RecordDoesNotExistError`
for a `'record'` context — carrying the context's id in either case,
whatever the response body. -/
theorem parse_error_not_found (context : List (Str × Str))
    (body : Option (List (Str × BodyVal))) (r i : Str)
    (hr : dictGet context kResource = some r)
    (hi : dictGet context kId = some i) :
    (r = sZone →
      parse_error NOT_FOUND context body = ParseErrorOutcome.zoneDoesNotExist i) ∧
    (r = sRecord →
      parse_error NOT_FOUND context body = ParseErrorOutcome.recordDoesNotExist i) := by
  constructor
  · intro hz
    subst hz
    simp [parse_error, hr, hi]
  · intro hz
    subst hz
    have hzr : ¬ (sRecord = sZone) := by decide
    simp [parse_error, hr, hi, hzr]

/-- Witness for C2's theorem: a concrete zone context with id `"z1"`. -/
theorem parse_error_not_found_witness :
    dictGet [(kResource, sZone), (kId, "z1".data)] kResource = some sZone ∧
    dictGet [(kResource, sZone), (kId, "z1".data)] kId = some ("z1".data) ∧
    parse_error NOT_FOUND [(kResource, sZone), (kId, "z1".data)] none =
      ParseErrorOutcome.zoneDoesNotExist ("z1".data) := by
  refine ⟨by decide, by decide, ?_⟩
  exact (parse_error_not_found [(kResource, sZone), (kId, "z1".data)] none sZone
    ("z1".data) (by decide) (by decide)).1 rfl

/-- C3: on HTTP 409 (`httplib.CONFLICT`), `parse_error` raises the
"already exists" error for the resource kind in the connection context —
`ZoneAlreadyExistsError` for a `'zone'` context, `RecordAlreadyExistsError`
for a `'record'` context — carrying the context's `'value'`, whatever the
response body. -/
theorem parse_error_conflict (context : List (Str × Str))
    (body : Option (List (Str × BodyVal))) (r v : Str)
    (hr : dictGet context kResource = some r)
    (hv : dictGet context kValue = some v) :
    (r = sZone →
      parse_error CONFLICT context body = ParseErrorOutcome.zoneAlreadyExists v) ∧
    (r = sRecord →
      parse_error CONFLICT context body = ParseErrorOutcome.recordAlreadyExists v) := by
  have hne : ¬ ((CONFLICT : Nat) = NOT_FOUND) := by decide
  constructor
  · intro hz
    subst hz
    simp [parse_error, parse_error_conflict_stage, hne, hr, hv]
  · intro hz
    subst hz
    have hzr : ¬ (sRecord = sZone) := by decide
    simp [parse_error, parse_error_conflict_stage, hne, hr, hv, hzr]

/-- Witness for C3's theorem: a concrete record context with value
`"mail.x.com"`. -/
theorem parse_error_conflict_witness :
    dictGet [(kResource, sRecord), (kValue, "mail.x.com".data)] kResource = some sRecord ∧
    dictGet [(kResource, sRecord), (kValue, "mail.x.com".data)] kValue =
      some ("mail.x.com".data) ∧
    parse_error CONFLICT [(kResource, sRecord), (kValue, "mail.x.com".data)] none =
      ParseErrorOutcome.recordAlreadyExists ("mail.x.com".data) := by
  refine ⟨by decide, by decide, ?_⟩
  exact (parse_error_conflict [(kResource, sRecord), (kValue, "mail.x.com".data)] none
    sRecord ("mail.x.com".data) (by decide) (by decide)).2 rfl

/-- C4 (counterexample): for a non-success status other than 404 and 409 the
outcome is *not* unconditional on the body: with a body carrying `'message'`
(and `'code'` and `'errors'`), `parse_error` returns the formatted error
string instead of raising `LibcloudError`. -/
theorem parse_error_other_status_cex :
    parse_error 500 [] (some fullErrorBody) =
      ParseErrorOutcome.errorString (BodyVal.str ("500".data)) (BodyVal.str ("err".data))
        (BodyVal.str ("boom".data)) ∧
    parse_error 500 [] (some fullErrorBody) ≠ ParseErrorOutcome.unexpectedStatus 500 := by
  have h : parse_error 500 [] (some fullErrorBody) =
      ParseErrorOutcome.errorString (BodyVal.str ("500".data)) (BodyVal.str ("err".data))
        (BodyVal.str ("boom".data)) := rfl
  refine ⟨h, ?_⟩
  rw [h]
  intro hc
  exact ParseErrorOutcome.noConfusion hc

/-- C4 (amended): for every status other than 404 and 409, `parse_error`
raises the generic `LibcloudError('Unexpected status code: %s' % status)` —
*provided* the parsed body is `None`, an empty dict, or a dict without a
`'message'` key; a truthy body with `'message'` makes it return a formatted
error string instead. -/
theorem parse_error_other_status (status : Nat) (context : List (Str × Str))
    (body : Option (List (Str × BodyVal)))
    (h404 : status ≠ NOT_FOUND) (h409 : status ≠ CONFLICT)
    (hb : body_lacks_message body) :
    parse_error status context body = ParseErrorOutcome.unexpectedStatus status := by
  rw [parse_error, if_neg h404, parse_error_conflict_stage, if_neg h409]
  match body, hb with
  | none, _ => rfl
  | some d, hb =>
    rcases hb with hb | hb
    · subst hb
      rfl
    · simp [parse_error_body_stage, hb]

/-- Witness for C4's amended theorem at status 500 with no body. -/
theorem parse_error_other_status_witness :
    (500 : Nat) ≠ NOT_FOUND ∧ (500 : Nat) ≠ CONFLICT ∧ body_lacks_message none ∧
    parse_error 500 [] none = ParseErrorOutcome.unexpectedStatus 500 :=
  ⟨by decide, by decide, trivial,
    parse_error_other_status 500 [] none (by decide) (by decide) trivial⟩

/-- C5 (counterexample): `_to_record` does *not* set the name to the FQDN with
the zone's domain portion removed: for the FQDN `"b.a.a"` in a zone with
domain `"a"`, removing the domain portion gives `"b.a"`
(`spec_partial_record_name`), but the driver's `str.replace` removes every
occurrence of `".a"` and stores `"b"`. -/
theorem to_record_name_cex :
    spec_partial_record_name zoneA.domain ("b.a.a".data) = some ("b.a".data) ∧
    _to_record zoneA dataBAA =
      Except.ok ⟨"7".data, some ("b".data), RecordType.A, "1.2.3.4".data, zoneA,
        [(kFqdn, "b.a.a".data)]⟩ ∧
    some ("b".data) ≠ spec_partial_record_name zoneA.domain ("b.a.a".data) :=
  ⟨by decide, rfl, by decide⟩

/-- C5 (amended): `_to_record` stores the provider FQDN in `extra['fqdn']` and
sets the record's name to the FQDN with *every* occurrence of
`'.' + zone.domain` removed (`None` for a record at the zone root), which
coincides with "the domain portion removed" whenever `'.' + domain` occurs
only as the final suffix. -/
theorem to_record_fqdn_and_name (zone : Zone) (data : List (Str × Str))
    (i fq tys dt : Str) (rt : RecordType)
    (hid : dictGet data kId = some i)
    (hfq : dictGet data kName = some fq)
    (hty : dictGet data kType = some tys)
    (hrt : string_to_record_type tys = some rt)
    (hdt : dictGet data kData = some dt) :
    ∃ r, _to_record zone data = Except.ok r ∧
      r.name = (if fq = zone.domain then none
                else some (replaceAll ('.' :: zone.domain) fq)) ∧
      dictGet r.extra kFqdn = some fq := by
  refine ⟨⟨i, _to_partial_record_name zone.domain fq, rt, dt, zone,
    (kFqdn, fq) :: VALID_RECORD_EXTRA_PARAMS.filterMap
      (fun k => (dictGet data k).map (fun v => (k, v)))⟩, ?_, ?_, ?_⟩
  · simp [_to_record, hid, hfq, hty, hrt, hdt]
  · simp [_to_partial_record_name]
  · simp [dictGet, List.find?]

/-- Witness for C5's amended theorem: FQDN `"www.foo.com"` in the zone
`"foo.com"` gives the relative name `"www"` and keeps the FQDN in extra. -/
theorem to_record_fqdn_and_name_witness :
    dictGet dataWWW kId = some ("5".data) ∧
    dictGet dataWWW kName = some ("www.foo.com".data) ∧
    dictGet dataWWW kType = some ("A".data) ∧
    string_to_record_type ("A".data) = some RecordType.A ∧
    dictGet dataWWW kData = some ("1.2.3.4".data) ∧
    ∃ r, _to_record zoneFoo dataWWW = Except.ok r ∧
      r.name = (if ("www.foo.com".data : Str) = zoneFoo.domain then none
                else some (replaceAll ('.' :: zoneFoo.domain) ("www.foo.com".data))) ∧
      dictGet r.extra kFqdn = some ("www.foo.com".data) :=
  ⟨by decide, by decide, by decide, by decide, by decide,
    to_record_fqdn_and_name zoneFoo dataWWW ("5".data) ("www.foo.com".data)
      ("A".data) ("1.2.3.4".data) RecordType.A (by decide) (by decide)
      (by decide) (by decide) (by decide)⟩

/-- C10 (counterexample): `create_record` with an extra dict containing
`'description'` but not `'data'` does not always raise `KeyError`: a
non-numeric `'ttl'` value makes `int(extra['ttl'])` raise `ValueError`
first (still before any request). -/
theorem create_record_description_cex :
    create_record zoneA [] RecordType.A ("1.2.3.4".data) (some extraBadTtl) [] =
      (Except.error PyErr.valueError, []) ∧
    dictGet extraBadTtl kDescription = some ("d".data) ∧
    dictGet extraBadTtl kData = none ∧
    PyErr.valueError ≠ PyErr.keyError kData :=
  ⟨rfl, by decide, by decide, by decide⟩

/-- C10 (amended): `create_record` with an extra dict containing
`'description'` but not `'data'` — and whose `'ttl'` entry, if any, is a
valid integer string — raises `KeyError('data')` (the code reads
`extra['data']` to fill the description field) before sending the creation
request: the request trace is empty. -/
theorem create_record_description_keyerror (zone : Zone) (name0 : Str)
    (rtype : RecordType) (rdata : Str) (extra : List (Str × Str))
    (response : List (Str × Str)) (dv : Str)
    (hdesc : dictGet extra kDescription = some dv)
    (hnodata : dictGet extra kData = none)
    (httl : dictGet extra kTtl = none ∨
      ∃ v n, dictGet extra kTtl = some v ∧ pyInt? v = some n) :
    create_record zone name0 rtype rdata (some extra) response =
      (Except.error (PyErr.keyError kData), []) := by
  rcases httl with h | ⟨v, n, hv, hn⟩
  · simp [create_record, h, hdesc, hnodata]
  · simp [create_record, hv, hn, hdesc, hnodata]

/-- Witness for C10's amended theorem: `extra = {'description': 'd'}`. -/
theorem create_record_description_keyerror_witness :
    dictGet [(kDescription, "d".data)] kDescription = some ("d".data) ∧
    dictGet [(kDescription, "d".data)] kData = none ∧
    (dictGet [(kDescription, "d".data)] kTtl = none ∨
      ∃ v n, dictGet [(kDescription, "d".data)] kTtl = some v ∧ pyInt? v = some n) ∧
    create_record zoneA [] RecordType.A ("1.2.3.4".data)
      (some [(kDescription, "d".data)]) [] =
      (Except.error (PyErr.keyError kData), []) :=
  ⟨by decide, by decide, Or.inl (by decide),
    create_record_description_keyerror zoneA [] RecordType.A ("1.2.3.4".data)
      [(kDescription, "d".data)] [] ("d".data) (by decide) (by decide)
      (Or.inl (by decide))⟩

end HPCloud

namespace Vultr

theorem foldl_pick_eq_some {α : Type} (p : α → Bool) :
    ∀ (xs : List α) (acc : Option α) (x : α),
      xs.foldl (fun a c => if p c then some c else a) acc = some x →
      p x = true ∨ acc = some x := by
  intro xs
  induction xs with
  | nil =>
    intro acc x h
    exact Or.inr h
  | cons c cs ih =>
    intro acc x h
    rw [List.foldl_cons] at h
    rcases ih _ x h with hp | hacc
    · exact Or.inl hp
    · by_cases hc : p c = true
      · rw [if_pos hc] at hacc
        cases hacc
        exact Or.inl hc
      · rw [if_neg hc] at hacc
        exact Or.inr hacc

theorem pickLast_eq_some {α : Type} (p : α → Bool) (xs : List α) (x : α)
    (h : pickLast p xs = some x) : p x = true := by
  rcases foldl_pick_eq_some p xs none x h with hp | h0
  · exact hp
  · exact Option.noConfusion h0

theorem list_records_trace (env : VultrEnv) (zone : Zone) :
    (list_records env zone).2 =
      (if zone_exists zone.domain (_to_zones env.domainsList) = false
       then [listReq] else [listReq, recordsReq]) := by
  simp only [list_records]
  by_cases h : zone_exists zone.domain (_to_zones env.domainsList) = false
  · rw [if_pos h, if_pos h]
  · rw [if_neg h, if_neg h]
    rcases hr : _to_records (env.recordsList zone.domain) zone with e | records <;> rfl

/-- C6 (counterexample): the Vultr driver raises a domain exception that is
*not* a mapping of an HTTP error status: `get_zone` against a provider whose
every response succeeds (`VultrEnv` models only successful responses) raises
`ZoneDoesNotExistError` purely because the requested domain is absent from
the parsed listing. -/
theorem get_zone_raises_from_successful_listing :
    get_zone emptyEnv ("nosuch.com".data) =
      (Except.error (DnsErr.zoneDoesNotExist ("nosuch.com".data)), [listReq]) := rfl

/-- C6 (amended): HPCloud domain exceptions come from `parse_error`'s
status table, but the Vultr driver decides them from the *content* of
successful listing responses: `get_zone` raises `ZoneDoesNotExistError`
exactly when the requested `zone_id` is absent from the domains of the
provider's listing, independent of any error status. -/
theorem get_zone_error_iff_absent (env : VultrEnv) (zone_id : Str) :
    (get_zone env zone_id).1 = Except.error (DnsErr.zoneDoesNotExist zone_id) ↔
      zone_exists zone_id (_to_zones env.domainsList) = false := by
  by_cases h : zone_exists zone_id (_to_zones env.domainsList) = false
  · simp [get_zone, h]
  · simp [get_zone, h]

/-- C7 (counterexample): `list_records` is not a single HTTP request: it
issues the domain listing request and then the record listing request — two
requests in one invocation. -/
theorem list_records_two_requests :
    (list_records envEx zEx).2 = [listReq, recordsReq] ∧
    (list_records envEx zEx).2.length ≠ 1 :=
  ⟨rfl, by decide⟩

/-- C7 (amended): the operations are one-shot but not all single-request:
per invocation, Vultr `get_zone` issues exactly one request, `list_records`
issues two when the zone is listed (one when the existence check already
fails), and `get_record` issues one or three. -/
theorem request_counts (env : VultrEnv) (zone : Zone) (zone_id record_id : Str) :
    (get_zone env zone_id).2.length = 1 ∧
    (list_records env zone).2.length =
      (if zone_exists zone.domain (_to_zones env.domainsList) = false then 1 else 2) ∧
    ((get_record env zone_id record_id).2.length = 1 ∨
     (get_record env zone_id record_id).2.length = 3) := by
  refine ⟨?_, ?_, ?_⟩
  · simp only [get_zone]
    by_cases h : zone_exists zone_id (_to_zones env.domainsList) = false
    · rw [if_pos h]
      rfl
    · rw [if_neg h]
      rfl
  · rw [list_records_trace]
    by_cases h : zone_exists zone.domain (_to_zones env.domainsList) = false
    · rw [if_pos h, if_pos h]
      rfl
    · rw [if_neg h, if_neg h]
      rfl
  · by_cases hz : zone_exists zone_id (_to_zones env.domainsList) = false
    · have hgz : get_zone env zone_id =
          (Except.error (DnsErr.zoneDoesNotExist zone_id), [listReq]) := by
        simp [get_zone, hz]
      simp only [get_record, hgz]
      exact Or.inl rfl
    · have hgz : get_zone env zone_id =
          (Except.ok (pickLast (fun z => z.domain == zone_id)
            (_to_zones env.domainsList)), [listReq]) := by
        simp [get_zone, hz]
      rcases hp : pickLast (fun z => z.domain == zone_id) (_to_zones env.domainsList)
        with _ | z
      · rw [hp] at hgz
        simp only [get_record, hgz]
        exact Or.inl rfl
      · rw [hp] at hgz
        have hzd : z.domain = zone_id :=
          eq_of_beq (pickLast_eq_some (fun z => z.domain == zone_id) _ z hp)
        have hlrt : (list_records env z).2 = [listReq, recordsReq] := by
          rw [list_records_trace, hzd, if_neg hz]
        rcases hlr : list_records env z with ⟨e | records, t2⟩
        · rw [hlr] at hlrt
          subst hlrt
          simp only [get_record, hgz, hlr]
          exact Or.inr rfl
        · rw [hlr] at hlrt
          subst hlrt
          simp only [get_record, hgz, hlr]
          by_cases hrec : record_exists record_id records = false
          · rw [if_pos hrec]
            exact Or.inr rfl
          · rw [if_neg hrec]
            exact Or.inr rfl

/-- C8 (code bug): the final loop of `create_record`,
`for record in updated: if record.name == name: record = record`, assigns the
loop variable to itself, so the operation returns the *last* record of the
updated listing whatever its name: asked for `"www"` when the provider lists
the new `"www"` record first and the old `"mail"` record last, it returns the
`"mail"` record although a record named `"www"` is in the listing. -/
theorem create_record_returns_last_listed :
    (create_record preEnv postEnv zEx ("www".data) RecordType.A
      ("1.2.3.4".data) none).1 = Except.ok (some mailRec) ∧
    mailRec.name ≠ ("www".data) ∧
    (list_records postEnv zEx).1 = Except.ok [wwwRec, mailRec] ∧
    wwwRec.name = ("www".data) :=
  ⟨rfl, by decide, rfl, rfl⟩

/-- C9: `create_zone` requires `extra` to carry a `'serverip'`: when `extra`
is `None` or lacks the key, the local `serverip` is read unbound while
building the urlencoded payload, before any HTTP request — the operation
fails with an empty request trace, so no zone-creation request is sent. -/
theorem create_zone_unbound_serverip (env : VultrEnv) (zone_id type : Str)
    (ttl : Option Nat) (extra : Option (List (Str × Str)))
    (h : extra = none ∨ ∃ e, extra = some e ∧ dictGet e kServerip = none) :
    create_zone env zone_id type ttl extra =
      (Except.error (DnsErr.py (PyErr.unboundLocal kServerip)), []) := by
  rcases h with h | ⟨e, he, hk⟩
  · subst h
    rfl
  · subst he
    simp [create_zone, serveripBinding, hk]

/-- Witness for C9's theorem: `extra = None`. -/
theorem create_zone_unbound_serverip_witness :
    ((none : Option (List (Str × Str))) = none ∨
      ∃ e, (none : Option (List (Str × Str))) = some e ∧ dictGet e kServerip = none) ∧
    create_zone emptyEnv ("x.com".data) sMaster none none =
      (Except.error (DnsErr.py (PyErr.unboundLocal kServerip)), []) :=
  ⟨Or.inl rfl,
    create_zone_unbound_serverip emptyEnv ("x.com".data) sMaster none none (Or.inl rfl)⟩

end Vultr

end LibcloudDNS
